import Mathlib

set_option maxRecDepth 20000

/-!
A formal model of the IP geolocation microservice: the error taxonomy
(`app/core/exceptions.py`), the IPv4 validator (`app/core/validators.py`,
together with the parts of CPython's `ipaddress` module it calls), the
upstream provider adapter (`app/services/ip_providers/ip_api.py`), the
orchestration service (`app/services/geolocation.py`) and the client-IP
extractor (`app/dependencies/client_ip.py`), with theorems checking the
specification's claims against these definitions.
-/

deriving instance DecidableEq for Except

namespace GeoService

/-- Embeds `GeolocationError` from `app/core/exceptions.py`: every service
error carries a human-readable message, a machine-readable error type code
and an HTTP status code.  The Python subclasses are embedded as the
constructor functions below; Python f-strings become `++` concatenation. -/
structure GeolocationError where
  message : String
  error_type : String
  status_code : Nat
deriving DecidableEq, Repr

/-- Embeds `InvalidIPError.__init__` (exceptions.py). -/
def InvalidIPError (ip : String) : GeolocationError :=
  ⟨"Invalid IPv4 address: " ++ ip, "invalid_ip", 400⟩

/-- Embeds `PrivateIPError.__init__` (exceptions.py). -/
def PrivateIPError (ip : String) : GeolocationError :=
  ⟨"Cannot geolocate private/reserved IP: " ++ ip, "private_ip", 422⟩

/-- Embeds `IPNotFoundError.__init__` (exceptions.py). -/
def IPNotFoundError (ip : String) : GeolocationError :=
  ⟨"Geolocation data not found for IP: " ++ ip, "ip_not_found", 404⟩

/-- Embeds `RateLimitError.__init__` (exceptions.py). -/
def RateLimitError (provider : String) : GeolocationError :=
  ⟨"Rate limit exceeded for provider: " ++ provider, "rate_limit_exceeded", 429⟩

/-- Embeds `ProviderUnavailableError.__init__` (exceptions.py). -/
def ProviderUnavailableError (provider reason : String) : GeolocationError :=
  ⟨"Geolocation provider " ++ provider ++ " is unavailable: " ++ reason,
   "provider_unavailable", 503⟩

/-- Embeds `ClientIPDetectionError.__init__` (exceptions.py). -/
def ClientIPDetectionError : GeolocationError :=
  ⟨"Unable to determine client IP address", "client_ip_detection_failed", 400⟩

/-! ### IPv4 parsing and classification

`validate_ip_address` (validators.py) delegates parsing and range
classification to CPython's `ipaddress` module; the definitions below embed
the relevant stdlib behaviour: dotted-quad string parsing
(`_BaseV4._ip_int_from_string` / `_parse_octet`) and the address-range
predicates (`is_private`, `is_loopback`, `is_reserved`, `is_multicast`,
`is_link_local`, `is_unspecified` of `IPv4Address`). -/

/-- Python `str.split(sep)` for a one-character separator, over the list of
characters.  Never returns the empty list; `"".split(sep) == [""]`. -/
def splitOnChar (sep : Char) : List Char → List (List Char)
  | [] => [[]]
  | c :: rest =>
    match splitOnChar sep rest with
    | [] => [[]]
    | grp :: grps => if c = sep then [] :: grp :: grps else (c :: grp) :: grps

/-- Value of a string of decimal digits (callers check the digits first). -/
def decimalVal (l : List Char) : Nat :=
  l.foldl (fun acc c => acc * 10 + (c.toNat - 48)) 0

/-- Embeds CPython `ipaddress._BaseV4._parse_octet`: an octet must be
non-empty, all ASCII decimal digits, at most three characters, carry no
leading zero, and be at most 255; any violation is a `ValueError`,
modelled as `none`. -/
def parseOctet (l : List Char) : Option Nat :=
  if l.isEmpty then none
  else if !l.all Char.isDigit then none
  else if l.length > 3 then none
  else if l.length > 1 && l.headD ' ' == '0' then none
  else if decimalVal l > 255 then none
  else some (decimalVal l)

/-- The 32-bit value of the dotted quad `a.b.c.d`. -/
def ipv4 (a b c d : Nat) : Nat := ((a * 256 + b) * 256 + c) * 256 + d

/-- Embeds CPython `ipaddress` string parsing of an IPv4 literal
(`_BaseV4._ip_int_from_string`): split on `'.'`, require exactly four
octets, parse each with `parseOctet`.  Returns the 32-bit address value.
`ipaddress.ip_address` inputs that parse as IPv6 instead of IPv4 are
covered by the `none` case: `validate_ip_address` raises the same
`InvalidIPError` both for unparsable strings and for non-IPv4 addresses
(the `isinstance` check in validators.py), so the embedding merges the two
paths, which are observationally identical. -/
def parseIPv4 (s : String) : Option Nat :=
  match (splitOnChar '.' s.data).map parseOctet with
  | [some a, some b, some c, some d] => some (ipv4 a b c d)
  | _ => none

/-- Membership of address value `v` in the CIDR block `net/prefixLen`. -/
def inNetwork (net prefixLen v : Nat) : Bool :=
  v / 2 ^ (32 - prefixLen) == net / 2 ^ (32 - prefixLen)

/-- Embeds CPython `IPv4Address.is_private`: membership in the IANA
special-purpose list `_private_networks` of `ipaddress`
(0.0.0.0/8, 10/8, 127/8, 169.254/16, 172.16/12, 192.0.0.0/29,
192.0.0.170/31, 192.0.2.0/24, 192.168/16, 198.18/15, 198.51.100/24,
203.0.113/24, 240/4, 255.255.255.255/32). -/
def is_private (v : Nat) : Bool :=
  inNetwork (ipv4 0 0 0 0) 8 v ||
  inNetwork (ipv4 10 0 0 0) 8 v ||
  inNetwork (ipv4 127 0 0 0) 8 v ||
  inNetwork (ipv4 169 254 0 0) 16 v ||
  inNetwork (ipv4 172 16 0 0) 12 v ||
  inNetwork (ipv4 192 0 0 0) 29 v ||
  inNetwork (ipv4 192 0 0 170) 31 v ||
  inNetwork (ipv4 192 0 2 0) 24 v ||
  inNetwork (ipv4 192 168 0 0) 16 v ||
  inNetwork (ipv4 198 18 0 0) 15 v ||
  inNetwork (ipv4 198 51 100 0) 24 v ||
  inNetwork (ipv4 203 0 113 0) 24 v ||
  inNetwork (ipv4 240 0 0 0) 4 v ||
  v == ipv4 255 255 255 255

/-- Embeds CPython `IPv4Address.is_loopback` (127.0.0.0/8). -/
def is_loopback (v : Nat) : Bool := inNetwork (ipv4 127 0 0 0) 8 v

/-- Embeds CPython `IPv4Address.is_reserved` (240.0.0.0/4). -/
def is_reserved (v : Nat) : Bool := inNetwork (ipv4 240 0 0 0) 4 v

/-- Embeds CPython `IPv4Address.is_multicast` (224.0.0.0/4). -/
def is_multicast (v : Nat) : Bool := inNetwork (ipv4 224 0 0 0) 4 v

/-- Embeds CPython `IPv4Address.is_link_local` (169.254.0.0/16). -/
def is_link_local (v : Nat) : Bool := inNetwork (ipv4 169 254 0 0) 16 v

/-- Embeds CPython `IPv4Address.is_unspecified` (0.0.0.0). -/
def is_unspecified (v : Nat) : Bool := v == 0

/-- Embeds `validate_ip_address` (validators.py): parse the string, raising
`InvalidIPError` when it is not an IPv4 literal, then reject, in source
order, private, loopback, reserved, multicast, link-local and unspecified
addresses with `PrivateIPError`; otherwise return the parsed address. -/
def validate_ip_address (ip : String) : Except GeolocationError Nat :=
  match parseIPv4 ip with
  | none => .error (InvalidIPError ip)
  | some v =>
    if is_private v then .error (PrivateIPError ip)
    else if is_loopback v then .error (PrivateIPError ip)
    else if is_reserved v then .error (PrivateIPError ip)
    else if is_multicast v then .error (PrivateIPError ip)
    else if is_link_local v then .error (PrivateIPError ip)
    else if is_unspecified v then .error (PrivateIPError ip)
    else .ok v

/-- Embeds `is_valid_public_ipv4` (validators.py): call the validator and
collapse its two failure kinds (`InvalidIPError`, `PrivateIPError`, the
only errors the validator produces) to `false`. -/
def is_valid_public_ipv4 (ip : String) : Bool :=
  match validate_ip_address ip with
  | .ok _ => true
  | .error _ => false

example : validate_ip_address "8.8.8.8" = .ok (ipv4 8 8 8 8) := by decide
example : validate_ip_address "192.168.1.1" = .error (PrivateIPError "192.168.1.1") := by decide
example : validate_ip_address "256.1.1.1" = .error (InvalidIPError "256.1.1.1") := by decide
example : validate_ip_address "1.1.1" = .error (InvalidIPError "1.1.1") := by decide
example : validate_ip_address "" = .error (InvalidIPError "") := by decide
example : validate_ip_address "192.0.2.1" = .error (PrivateIPError "192.0.2.1") := by decide
example : validate_ip_address "01.2.3.4" = .error (InvalidIPError "01.2.3.4") := by decide
example : is_valid_public_ipv4 "93.184.216.34" = true := by decide

/-! ### IPv6 parsing and pydantic `IPvAnyAddress`

The pydantic model `GeolocationResponse` (responses.py) types its `ip`
field `IPvAnyAddress`, which validates the adapter's `data["query"]`
argument at construction by trying CPython `IPv4Address(value)` and then
`IPv6Address(value)`, raising `ValidationError` when both fail.  The
definitions below embed CPython `_BaseV6._ip_int_from_string` /
`_parse_hextet` and the `IPv6Address.__init__` string handling ('/'
rejection and scope-id splitting). -/

/-- CPython's hex-digit set `_HEX_DIGITS` of the `ipaddress` module. -/
def isHexDigitPy (c : Char) : Bool :=
  c.isDigit || ('a' ≤ c && c ≤ 'f') || ('A' ≤ c && c ≤ 'F')

/-- Value of one hex digit. -/
def hexDigitVal (c : Char) : Nat :=
  if c.isDigit then c.toNat - 48
  else if 'a' ≤ c && c ≤ 'f' then c.toNat - 87
  else c.toNat - 55

/-- Value of a hex-digit string (callers check the digits first). -/
def hexVal (l : List Char) : Nat :=
  l.foldl (fun acc c => acc * 16 + hexDigitVal c) 0

/-- Embeds `_BaseV6._parse_hextet`: only hex digits, at most four
characters; the empty string fails in `int(hextet_str, 16)`. -/
def parseHextet (l : List Char) : Option Nat :=
  if !l.all isHexDigitPy then none
  else if l.length > 4 then none
  else if l.isEmpty then none
  else some (hexVal l)

/-- One part of a split IPv6 address string: `raw` for a piece of the
`':'` split, `val` for one of the two hextet values CPython synthesises
from an embedded dotted-quad suffix (`parts.append('%x' % ...)`; rendering
to at most four hex digits and reparsing is the identity, so the value is
carried directly). -/
inductive V6Part where
  | raw (l : List Char)
  | val (n : Nat)
deriving DecidableEq, Repr

/-- Python emptiness test `not parts[i]` on a part (synthesised hextets
are never empty). -/
def v6PartIsEmpty : V6Part → Bool
  | .raw l => l.isEmpty
  | .val _ => false

/-- Parse one part as a hextet value. -/
def v6PartParse : V6Part → Option Nat
  | .raw l => parseHextet l
  | .val n => some n

/-- Fold a run of parts into the integer of their 16-bit hextets
(CPython's `ip_int <<= 16; ip_int |= ...` loop), failing if any part is
not a valid hextet. -/
def hextetsVal (parts : List V6Part) : Option Nat :=
  match parts.mapM v6PartParse with
  | none => none
  | some vals => some (vals.foldl (fun acc v => acc * 65536 + v) 0)

/-- Embeds CPython `_BaseV6._ip_int_from_string`: split on `':'` (at
least three parts), convert a dotted-quad suffix into two hextets, allow
at most nine parts, locate at most one `'::'` run (an empty inner part),
check the endpoint-emptiness rules, require at least one skipped group
when `'::'` is present (exactly eight parts when it is not), and
assemble the 128-bit value from the high parts, the skipped zero groups
and the low parts. -/
def parseIPv6Core (s : String) : Option Nat :=
  if s.data.isEmpty then none
  else
  let parts0 := splitOnChar ':' s.data
  if parts0.length < 3 then none
  else
  let expanded : Option (List V6Part) :=
    match parts0.getLast? with
    | none => none
    | some last =>
      if last.contains '.' then
        match parseIPv4 (String.mk last) with
        | none => none
        | some v =>
          some ((parts0.dropLast.map V6Part.raw) ++
            [V6Part.val (v / 65536), V6Part.val (v % 65536)])
      else some (parts0.map V6Part.raw)
  match expanded with
  | none => none
  | some parts =>
    if parts.length > 9 then none
    else
    let firstEmpty := v6PartIsEmpty (parts.getD 0 (V6Part.val 0))
    let lastEmpty := v6PartIsEmpty (parts.getD (parts.length - 1) (V6Part.val 0))
    let emptyInner := (List.range parts.length).filter (fun i =>
      decide (1 ≤ i) && decide (i + 1 < parts.length) &&
        v6PartIsEmpty (parts.getD i (V6Part.val 0)))
    match emptyInner with
    | [] =>
      if parts.length ≠ 8 then none
      else if firstEmpty then none
      else if lastEmpty then none
      else hextetsVal parts
    | [skipIndex] =>
      if firstEmpty && skipIndex ≠ 1 then none
      else
      let hi := if firstEmpty then skipIndex - 1 else skipIndex
      if lastEmpty && parts.length - skipIndex - 1 ≠ 1 then none
      else
      let lo := if lastEmpty then parts.length - skipIndex - 2
        else parts.length - skipIndex - 1
      if hi + lo > 7 then none
      else
      match hextetsVal (parts.take hi), hextetsVal (parts.drop (parts.length - lo)) with
      | some hiV, some loV => some (hiV * 65536 ^ (8 - hi) + loV)
      | _, _ => none
    | _ => none

/-- Embeds CPython `IPv6Address.__init__` string handling: reject any
`'/'`, split a scope id at the first `'%'` (`_split_scope_id`: the scope
must be non-empty and contain no further `'%'`), then parse the address
part. -/
def parseIPv6 (s : String) : Option (Nat × Option String) :=
  if s.data.contains '/' then none
  else
    match splitOnChar '%' s.data with
    | [addr] => (parseIPv6Core (String.mk addr)).map (fun v => (v, none))
    | [addr, scope] =>
      if scope.isEmpty then none
      else (parseIPv6Core (String.mk addr)).map (fun v => (v, some (String.mk scope)))
    | _ => none

/-- A parsed IP address as pydantic `IPvAnyAddress` stores it: an
`IPv4Address` (32-bit value) or an `IPv6Address` (128-bit value with an
optional scope id). -/
inductive IPAnyAddress where
  | v4 (val : Nat)
  | v6 (val : Nat) (scopeId : Option String)
deriving DecidableEq, Repr

/-- Embeds the pydantic `IPvAnyAddress` validator: try `IPv4Address`,
then `IPv6Address`; `none` models the `ValidationError` raised when both
fail. -/
def parseIPAny (s : String) : Option IPAnyAddress :=
  match parseIPv4 s with
  | some v => some (.v4 v)
  | none => (parseIPv6 s).map (fun p => .v6 p.1 p.2)

example : parseIPAny "8.8.8.8" = some (.v4 (ipv4 8 8 8 8)) := by decide
example : parseIPAny "::1" = some (.v6 1 none) := by decide
example : parseIPAny "2001:4860:4860::8888" =
    some (.v6 (((0x2001 * 65536 + 0x4860) * 65536 + 0x4860) * 65536 ^ 5 + 0x8888) none) := by
  decide
example : parseIPAny "::ffff:1.2.3.4" = some (.v6 0xffff01020304 none) := by decide
example : parseIPAny "fe80::1%eth0" =
    some (.v6 (0xfe80 * 65536 ^ 7 + 1) (some "eth0")) := by decide
example : parseIPAny "hello" = none := by decide
example : parseIPAny "" = none := by decide
example : parseIPAny "1:::2" = none := by decide
example : parseIPAny "1:2:3:4:5:6:7" = none := by decide
example : parseIPAny ":1:2:3:4:5:6:7" = none := by decide
example : parseIPAny "fe80::1%" = none := by decide

/-! ### Upstream provider adapter (`app/services/ip_providers/ip_api.py`) -/

/-- Embeds the pydantic model `GeolocationResponse` (responses.py).  The
`ip` field holds the `IPvAnyAddress` object pydantic parses and validates
from the adapter's `data["query"]` argument at construction; JSON numbers
are embedded as rationals. -/
structure GeolocationResponse where
  ip : IPAnyAddress
  country : String
  country_code : String
  region : String
  region_code : String
  city : String
  zip_code : Option String
  latitude : Rat
  longitude : Rat
  timezone : String
  isp : String
  organization : String
  as_number : String
  as_name : String
deriving DecidableEq, Repr

/-- A parsed upstream JSON body, restricted to the fields the adapter reads
and their wire types (spec section 6): each field is `none` when the key is
absent from the body.  The Python `as` key is named `asField`. -/
structure UpstreamBody where
  status : Option String
  country : Option String
  countryCode : Option String
  regionName : Option String
  region : Option String
  city : Option String
  zip : Option String
  lat : Option Rat
  lon : Option Rat
  timezone : Option String
  isp : Option String
  org : Option String
  asField : Option String
  query : Option String
deriving DecidableEq, Repr

/-- An upstream JSON body with every field absent. -/
def emptyBody : UpstreamBody :=
  ⟨none, none, none, none, none, none, none, none, none, none, none, none, none, none⟩

/-- Outcome of the single upstream HTTP GET in
`IPAPIProvider.get_geolocation`: a response carrying an HTTP status code
and a body that either parses as JSON (`Except.ok`) or does not
(`Except.error` with the parse-failure detail), or a transport exception:
an `httpx.TimeoutException`, an `httpx.ConnectError`, or any other
exception, each carrying its Python type name (`type(e).__name__`). -/
inductive FetchOutcome where
  | response (statusCode : Nat) (body : Except String UpstreamBody)
  | timeoutExc (typeName : String)
  | connectExc (typeName : String)
  | otherExc (typeName : String)
deriving DecidableEq, Repr

/-- The `IPAPIProvider.name` property. -/
def providerName : String := "ip-api.com"

/-- Python truthiness of an optional string: `None` and `""` are falsy. -/
def pyTruthy : Option String → Bool
  | none => false
  | some s => !(s == "")

/-- Helper for Python `str.split()` with no argument: accumulates the
current token (reversed) while scanning. -/
def splitWSAux : List Char → List Char → List (List Char)
  | cur, [] => if cur.isEmpty then [] else [cur.reverse]
  | cur, c :: rest =>
    if c.isWhitespace then
      if cur.isEmpty then splitWSAux [] rest
      else cur.reverse :: splitWSAux [] rest
    else splitWSAux (c :: cur) rest

/-- Python `str.split()` with no argument: split on runs of whitespace,
with no empty tokens. -/
def splitWS (s : String) : List String :=
  (splitWSAux [] s.data).map String.mk

/-- Models `data.get("as", "").split()[0] if data.get("as") else ""` from
the adapter: when the field is truthy but splits into no tokens, Python
raises `IndexError` on `[0]`; the error case carries the exception type
name for the adapter's catch-all handler. -/
def asNumberOf (a : Option String) : Except String String :=
  if pyTruthy a then
    match splitWS (a.getD "") with
    | [] => .error "IndexError"
    | t :: _ => .ok t
  else .ok ""

/-- Models `" ".join(data.get("as", "").split()[1:]) if data.get("as")
else ""` from the adapter (total: `[1:]` and `join` cannot raise). -/
def asNameOf (a : Option String) : String :=
  if pyTruthy a then String.intercalate " " ((splitWS (a.getD "")).drop 1)
  else ""

/-- Embeds `IPAPIProvider.get_geolocation` (ip_api.py) as a function of the
requested IP and the outcome of the upstream call.  Mirrors the source
control flow: HTTP 429, then HTTP >= 500, then JSON parsing, then the
`status == "fail"` marker, then the response construction.  In the
construction, `ip=data["query"]` is the first keyword argument Python
evaluates, so a missing `query` key raises `KeyError` before the `as`
split can raise `IndexError`; only after every argument is evaluated does
the pydantic constructor run and validate the `ip` field as an
`IPvAnyAddress`, raising `ValidationError` when `query` parses as neither
an IPv4 nor an IPv6 address.  All three land in the source's last-resort
`except Exception` handler, which wraps them as
`ProviderUnavailableError(name, "Unexpected error: <type name>")`. -/
def get_geolocation (ip : String) (outcome : FetchOutcome) :
    Except GeolocationError GeolocationResponse :=
  match outcome with
  | .timeoutExc tn =>
    .error (ProviderUnavailableError providerName ("Network error: " ++ tn))
  | .connectExc tn =>
    .error (ProviderUnavailableError providerName ("Network error: " ++ tn))
  | .otherExc tn =>
    .error (ProviderUnavailableError providerName ("Unexpected error: " ++ tn))
  | .response statusCode body =>
    if statusCode == 429 then .error (RateLimitError providerName)
    else if statusCode ≥ 500 then
      .error (ProviderUnavailableError providerName ("HTTP " ++ toString statusCode))
    else
      match body with
      | .error msg =>
        .error (ProviderUnavailableError providerName ("Invalid JSON response: " ++ msg))
      | .ok data =>
        if data.status == some "fail" then .error (IPNotFoundError ip)
        else
          match data.query with
          | none => .error (ProviderUnavailableError providerName "Unexpected error: KeyError")
          | some q =>
            match asNumberOf data.asField with
            | .error en =>
              .error (ProviderUnavailableError providerName ("Unexpected error: " ++ en))
            | .ok asNum =>
              match parseIPAny q with
              | none =>
                .error (ProviderUnavailableError providerName
                  "Unexpected error: ValidationError")
              | some addr =>
                .ok { ip := addr
                      country := data.country.getD ""
                      country_code := data.countryCode.getD ""
                      region := data.regionName.getD ""
                      region_code := data.region.getD ""
                      city := data.city.getD ""
                      zip_code := data.zip
                      latitude := data.lat.getD 0
                      longitude := data.lon.getD 0
                      timezone := data.timezone.getD ""
                      isp := data.isp.getD ""
                      organization := data.org.getD ""
                      as_number := asNum
                      as_name := asNameOf data.asField }

/-- Outcome of the health-probe HTTP GET in `IPAPIProvider.check_health`:
a response with its status code, or any exception. -/
inductive ProbeOutcome where
  | response (statusCode : Nat)
  | exc (typeName : String)
deriving DecidableEq, Repr

/-- Embeds `IPAPIProvider.check_health` (ip_api.py): true exactly when the
probe of 8.8.8.8 completes with HTTP 200; any exception yields false. -/
def check_health : ProbeOutcome → Bool
  | .response statusCode => statusCode == 200
  | .exc _ => false

/-! ### Orchestration service (`app/services/geolocation.py`) -/

/-- Embeds `GeolocationService.geolocate_ip` (geolocation.py), instrumented
with the number of provider invocations.  A provider implementation is
modelled by its result function on the raw IP string; the second component
of the result counts calls to `provider.get_geolocation`.  The source first
runs `validate_ip_address(ip)` — its exceptions propagate and the provider
is not called — and then returns the provider's result for the same raw
string unchanged. -/
def geolocate_ip (provider : String → Except GeolocationError GeolocationResponse)
    (ip : String) : Except GeolocationError GeolocationResponse × Nat :=
  match validate_ip_address ip with
  | .error e => (.error e, 0)
  | .ok _ => (provider ip, 1)

/-! ### Client-IP extractor (`app/dependencies/client_ip.py`) -/

/-- The request state read by `get_client_ip` (client_ip.py): the
`X-Forwarded-For` and `X-Real-IP` header values (`none` when the header is
absent) and the transport peer address `request.client.host` (`none` when
`request.client` is absent or the host is missing). -/
structure ClientRequest where
  xForwardedFor : Option String
  xRealIP : Option String
  clientHost : Option String
deriving DecidableEq, Repr

/-- Python `str.strip()`: drop leading and trailing whitespace. -/
def pyStrip (s : String) : String :=
  String.mk (((s.data.dropWhile Char.isWhitespace).reverse.dropWhile Char.isWhitespace).reverse)

/-- `s.split(",")[0]`: the first comma-separated token (Python's split on a
separator never yields an empty list). -/
def firstCommaToken (s : String) : String :=
  String.mk ((splitOnChar ',' s.data).headD [])

/-- Embeds `get_client_ip` (client_ip.py).  The walrus-guarded header reads
`if value := request.headers.get(h)` test Python truthiness, so an absent
header and an empty-string header both fall through to the next source;
likewise `if request.client and request.client.host` for the peer
address. -/
def get_client_ip (req : ClientRequest) : Except GeolocationError String :=
  if pyTruthy req.xForwardedFor then
    .ok (pyStrip (firstCommaToken (req.xForwardedFor.getD "")))
  else if pyTruthy req.xRealIP then
    .ok (pyStrip (req.xRealIP.getD ""))
  else if pyTruthy req.clientHost then
    .ok (req.clientHost.getD "")
  else
    .error ClientIPDetectionError

example :
    get_geolocation "8.8.8.8"
      (.response 200 (.ok { emptyBody with query := some "8.8.8.8", asField := some "AS15169 GOOGLE" })) =
    .ok ⟨.v4 (ipv4 8 8 8 8), "", "", "", "", "", none, 0, 0, "", "", "", "AS15169", "GOOGLE"⟩ := by
  decide

example :
    get_geolocation "8.8.8.8" (.response 200 (.ok { emptyBody with query := some "hello" })) =
    .error (ProviderUnavailableError providerName "Unexpected error: ValidationError") := by
  decide

example :
    get_geolocation "8.8.8.8" (.response 200 (.ok { emptyBody with query := some "::1" })) =
    .ok ⟨.v6 1 none, "", "", "", "", "", none, 0, 0, "", "", "", "", ""⟩ := by
  decide

example :
    get_geolocation "8.8.8.8" (.response 200 (.ok { emptyBody with query := some "8.8.8.8", asField := some " " })) =
    .error (ProviderUnavailableError providerName "Unexpected error: IndexError") := by
  decide

example :
    get_geolocation "8.8.8.8" (.response 503 (.ok emptyBody)) =
    .error (ProviderUnavailableError providerName "HTTP 503") := by decide

example :
    get_client_ip ⟨some "8.8.8.8, 10.0.0.1", none, none⟩ = .ok "8.8.8.8" := by decide

example : get_client_ip ⟨some ", 1.2.3.4", none, none⟩ = .ok "" := by decide

example : get_client_ip ⟨some "", some " 9.9.9.9 ", none⟩ = .ok "9.9.9.9" := by decide

example : get_client_ip ⟨none, none, none⟩ = .error ClientIPDetectionError := by decide

/-! ### Specification-side definitions and helper lemmas -/

/-- The private-or-reserved address set exactly as claim C1 enumerates it:
10/8, 172.16/12, 192.168/16, 127/8, 169.254/16, 224/4 and above, 0.0.0.0,
and 255.255.255.255. -/
def claimedPrivateOrReserved (v : Nat) : Bool :=
  inNetwork (ipv4 10 0 0 0) 8 v ||
  inNetwork (ipv4 172 16 0 0) 12 v ||
  inNetwork (ipv4 192 168 0 0) 16 v ||
  inNetwork (ipv4 127 0 0 0) 8 v ||
  inNetwork (ipv4 169 254 0 0) 16 v ||
  (decide (ipv4 224 0 0 0 ≤ v) && decide (v ≤ ipv4 255 255 255 255)) ||
  v == 0 ||
  v == ipv4 255 255 255 255

/-- The private-or-reserved set as amended: claim C1's blocks plus the
remaining IANA special-purpose blocks that CPython's classifier also
rejects — all of 0/8 (not just 0.0.0.0), 192.0.0.0/29, 192.0.0.170/31,
192.0.2/24, 198.18/15, 198.51.100/24 and 203.0.113/24.  "224/4 and above"
already covers 240/4 and 255.255.255.255. -/
def amendedPrivateOrReserved (v : Nat) : Bool :=
  inNetwork (ipv4 0 0 0 0) 8 v ||
  inNetwork (ipv4 10 0 0 0) 8 v ||
  inNetwork (ipv4 172 16 0 0) 12 v ||
  inNetwork (ipv4 192 168 0 0) 16 v ||
  inNetwork (ipv4 127 0 0 0) 8 v ||
  inNetwork (ipv4 169 254 0 0) 16 v ||
  inNetwork (ipv4 192 0 0 0) 29 v ||
  inNetwork (ipv4 192 0 0 170) 31 v ||
  inNetwork (ipv4 192 0 2 0) 24 v ||
  inNetwork (ipv4 198 18 0 0) 15 v ||
  inNetwork (ipv4 198 51 100 0) 24 v ||
  inNetwork (ipv4 203 0 113 0) 24 v ||
  (decide (ipv4 224 0 0 0 ≤ v) && decide (v ≤ ipv4 255 255 255 255))

/-- The disjunction of the six stdlib range predicates tested by
`validate_ip_address` coincides with the amended private-or-reserved
set. -/
theorem rejected_eq_amended (v : Nat) :
    (is_private v || is_loopback v || is_reserved v || is_multicast v ||
      is_link_local v || is_unspecified v) = amendedPrivateOrReserved v := by
  have key : ∀ a b : Bool, (a = true ↔ b = true) → a = b := by decide
  apply key
  simp only [is_private, is_loopback, is_reserved, is_multicast, is_link_local,
    is_unspecified, amendedPrivateOrReserved, inNetwork, ipv4, Bool.or_eq_true,
    Bool.and_eq_true, beq_iff_eq, decide_eq_true_eq]
  norm_num
  omega

/-- Associativity of string concatenation (used to factor the upstream
status code out of an error message). -/
theorem string_append_assoc (a b c : String) : a ++ b ++ c = a ++ (b ++ c) := by
  apply String.ext
  simp [String.data_append]

/-! ### Claim theorems -/

/-- C1, counterexample: "192.0.2.1" (TEST-NET-1) is a syntactically valid
IPv4 literal lying outside every block the claim enumerates, yet the
validator rejects it as private/reserved (the stdlib classifier marks
192.0.2.0/24 private), refuting "for every other syntactically valid IPv4
address it succeeds". -/
theorem C1_counterexample :
    parseIPv4 "192.0.2.1" = some (ipv4 192 0 2 1) ∧
    claimedPrivateOrReserved (ipv4 192 0 2 1) = false ∧
    validate_ip_address "192.0.2.1" = .error (PrivateIPError "192.0.2.1") := by
  refine ⟨by decide, by decide, by decide⟩

/-- C1, amended: `validate_ip_address` totally classifies every input
string: strings that do not parse as a dotted-quad IPv4 literal fail with
the invalid-format error; parsed addresses in the claim's blocks or the
further IANA special-purpose blocks (0/8, 192.0.0.0/29, 192.0.0.170/31,
192.0.2/24, 198.18/15, 198.51.100/24, 203.0.113/24) fail with the
private-or-reserved error; every other parsed address is returned. -/
theorem C1_amended_classification (s : String) :
    validate_ip_address s =
      match parseIPv4 s with
      | none => .error (InvalidIPError s)
      | some v =>
        if amendedPrivateOrReserved v then .error (PrivateIPError s) else .ok v := by
  unfold validate_ip_address
  cases hp : parseIPv4 s with
  | none => rfl
  | some v =>
    dsimp only
    rw [← rejected_eq_amended v]
    cases h1 : is_private v <;> cases h2 : is_loopback v <;> cases h3 : is_reserved v <;>
      cases h4 : is_multicast v <;> cases h5 : is_link_local v <;>
      cases h6 : is_unspecified v <;> simp

/-- C3: every error variant carries exactly the fixed HTTP status code and
machine-readable type string of the spec table — InvalidFormat (400,
"invalid_ip"), ClientIPUndetermined (400, "client_ip_detection_failed"),
PrivateOrReserved (422, "private_ip"), NotFound (404, "ip_not_found"),
RateLimited (429, "rate_limit_exceeded"), Unavailable (503,
"provider_unavailable") — for every instance, regardless of the message
arguments. -/
theorem C3_error_table (ip provider reason : String) :
    ((InvalidIPError ip).status_code = 400 ∧
      (InvalidIPError ip).error_type = "invalid_ip") ∧
    (ClientIPDetectionError.status_code = 400 ∧
      ClientIPDetectionError.error_type = "client_ip_detection_failed") ∧
    ((PrivateIPError ip).status_code = 422 ∧
      (PrivateIPError ip).error_type = "private_ip") ∧
    ((IPNotFoundError ip).status_code = 404 ∧
      (IPNotFoundError ip).error_type = "ip_not_found") ∧
    ((RateLimitError provider).status_code = 429 ∧
      (RateLimitError provider).error_type = "rate_limit_exceeded") ∧
    ((ProviderUnavailableError provider reason).status_code = 503 ∧
      (ProviderUnavailableError provider reason).error_type = "provider_unavailable") :=
  ⟨⟨rfl, rfl⟩, ⟨rfl, rfl⟩, ⟨rfl, rfl⟩, ⟨rfl, rfl⟩, ⟨rfl, rfl⟩, ⟨rfl, rfl⟩⟩

/-- C4: the service is the sequential composition of validator and
provider: for every provider implementation and every input string, a
validation failure propagates as-is with the provider never invoked (call
count 0), and on validation success the provider's result for the raw
input — success record or typed failure — is returned unchanged (call
count 1). -/
theorem C4_service_composition
    (provider : String → Except GeolocationError GeolocationResponse) (ip : String) :
    (∀ e, validate_ip_address ip = .error e →
      geolocate_ip provider ip = (.error e, 0)) ∧
    (∀ v, validate_ip_address ip = .ok v →
      geolocate_ip provider ip = (provider ip, 1)) := by
  unfold geolocate_ip
  cases h : validate_ip_address ip <;> simp_all

/-- C4, witness: at "8.8.8.8" validation succeeds and the provider's
result (here a not-found failure) is returned with one provider call; at
the private "10.0.0.1" the validator's failure propagates with zero
provider calls. -/
theorem C4_witness :
    geolocate_ip (fun s => .error (IPNotFoundError s)) "8.8.8.8" =
      (.error (IPNotFoundError "8.8.8.8"), 1) ∧
    geolocate_ip (fun s => .error (IPNotFoundError s)) "10.0.0.1" =
      (.error (PrivateIPError "10.0.0.1"), 0) :=
  ⟨(C4_service_composition (fun s => .error (IPNotFoundError s)) "8.8.8.8").2
      (ipv4 8 8 8 8) (by decide),
   (C4_service_composition (fun s => .error (IPNotFoundError s)) "10.0.0.1").1
      (PrivateIPError "10.0.0.1") (by decide)⟩

/-- C6: `is_valid_public_ipv4` returns true exactly when
`validate_ip_address` succeeds, and both failure kinds collapse to false;
the predicate is a total function, so it never raises. -/
theorem C6_predicate_iff_validate (ip : String) :
    (is_valid_public_ipv4 ip = true ↔ ∃ v, validate_ip_address ip = .ok v) ∧
    (∀ e, validate_ip_address ip = .error e → is_valid_public_ipv4 ip = false) := by
  unfold is_valid_public_ipv4
  cases h : validate_ip_address ip <;> simp_all

/-- C6, witness: the equivalence applied at the public "8.8.8.8" and the
collapse-to-false direction applied at the private "10.0.0.1". -/
theorem C6_witness :
    (is_valid_public_ipv4 "8.8.8.8" = true ↔
      ∃ v, validate_ip_address "8.8.8.8" = .ok v) ∧
    is_valid_public_ipv4 "10.0.0.1" = false :=
  ⟨(C6_predicate_iff_validate "8.8.8.8").1,
   (C6_predicate_iff_validate "10.0.0.1").2 (PrivateIPError "10.0.0.1") (by decide)⟩

/-- C7: `check_health` is a total boolean function (never raises); it
returns true exactly when the health probe completes with the success
status HTTP 200, and every exception during the probe yields false. -/
theorem C7_check_health (o : ProbeOutcome) :
    (check_health o = true ↔ o = .response 200) ∧
    (∀ tn, check_health (.exc tn) = false) := by
  refine ⟨?_, fun tn => rfl⟩
  cases o with
  | response statusCode => simp [check_health]
  | exc tn => simp [check_health]

/-- C9: an empty-string `X-Forwarded-For` header is treated exactly as an
absent one (the extractor falls through to `X-Real-IP` and the peer
address, whatever they are), but a non-empty `X-Forwarded-For` whose
first comma-separated token is empty or whitespace-only makes the
extractor return the empty string instead of falling through. -/
theorem C9_xff_edge_cases (xr host : Option String) :
    get_client_ip ⟨some "", xr, host⟩ = get_client_ip ⟨none, xr, host⟩ ∧
    get_client_ip ⟨some ", 1.2.3.4", none, none⟩ = .ok "" ∧
    get_client_ip ⟨some " , 1.2.3.4", some "9.9.9.9", some "7.7.7.7"⟩ = .ok "" :=
  ⟨rfl, by decide, by decide⟩

/-- C10: a success-path upstream body (status neither 429 nor a server
error, JSON parses, status marker not "fail") that lacks the "query"
field does not yield a record with a defaulted ip: the `data["query"]`
lookup raises `KeyError`, the last-resort handler catches it, and the
call fails with the provider-unavailable error rather than not-found or
success. -/
theorem C10_missing_query_unavailable (ip : String) (statusCode : Nat)
    (data : UpstreamBody) (h429 : statusCode ≠ 429) (h500 : statusCode < 500)
    (hfail : data.status ≠ some "fail") (hq : data.query = none) :
    get_geolocation ip (.response statusCode (.ok data)) =
      .error (ProviderUnavailableError providerName "Unexpected error: KeyError") := by
  have h1 : (statusCode == 429) = false := by simpa using h429
  have h2 : ¬ statusCode ≥ 500 := by omega
  have h3 : (data.status == some "fail") = false := by simpa using hfail
  simp [get_geolocation, h1, h2, h3, hq]

/-- C10, witness: a parsed 200 body with every field absent fails with the
provider-unavailable error. -/
theorem C10_witness :
    get_geolocation "8.8.8.8" (.response 200 (.ok emptyBody)) =
      .error (ProviderUnavailableError providerName "Unexpected error: KeyError") :=
  C10_missing_query_unavailable "8.8.8.8" 200 emptyBody (by decide) (by decide)
    (by decide) rfl

/-- C8: `get_client_ip` returns the first usable address by strict
priority — a usable (present, non-empty) `X-Forwarded-For` yields its
first comma-separated token trimmed; otherwise a usable `X-Real-IP`
yields its value trimmed; otherwise a usable transport peer address is
returned as-is — and it fails with the client-IP-undetermined error
exactly when none of the three sources is usable.  The returned string is
whatever the source held (the first conjunct holds for arbitrary header
contents), so no validation is performed. -/
theorem C8_client_ip_priority (req : ClientRequest) :
    (∀ f, req.xForwardedFor = some f → f ≠ "" →
      get_client_ip req = .ok (pyStrip (firstCommaToken f))) ∧
    (pyTruthy req.xForwardedFor = false → ∀ r, req.xRealIP = some r → r ≠ "" →
      get_client_ip req = .ok (pyStrip r)) ∧
    (pyTruthy req.xForwardedFor = false → pyTruthy req.xRealIP = false →
      ∀ h, req.clientHost = some h → h ≠ "" → get_client_ip req = .ok h) ∧
    (get_client_ip req = .error ClientIPDetectionError ↔
      pyTruthy req.xForwardedFor = false ∧ pyTruthy req.xRealIP = false ∧
        pyTruthy req.clientHost = false) := by
  obtain ⟨xff, xr, host⟩ := req
  refine ⟨?_, ?_, ?_, ?_⟩
  · rintro f rfl hf
    simp [get_client_ip, pyTruthy, hf]
  · rintro hxff r rfl hr
    simp_all [get_client_ip, pyTruthy, hr]
  · rintro hxff hxr h rfl hh
    simp_all [get_client_ip, pyTruthy, hh]
  · by_cases h1 : pyTruthy xff <;> by_cases h2 : pyTruthy xr <;>
      by_cases h3 : pyTruthy host <;> simp [get_client_ip, h1, h2, h3]

/-- C8, witness: the claim's example — `X-Forwarded-For: 8.8.8.8, 10.0.0.1`
yields the first token "8.8.8.8". -/
theorem C8_witness :
    get_client_ip ⟨some "8.8.8.8, 10.0.0.1", none, none⟩ =
      .ok (pyStrip (firstCommaToken "8.8.8.8, 10.0.0.1")) ∧
    pyStrip (firstCommaToken "8.8.8.8, 10.0.0.1") = "8.8.8.8" :=
  ⟨(C8_client_ip_priority ⟨some "8.8.8.8, 10.0.0.1", none, none⟩).1
      "8.8.8.8, 10.0.0.1" rfl (by decide),
   by decide⟩

/-- C2: each failure condition of `get_geolocation` maps to exactly one
typed error — upstream HTTP 429 to the rate-limit error; HTTP >= 500 to
provider-unavailable with the code in the message; an unparsable body to
provider-unavailable; a parsed body with status "fail" to not-found;
network-level failures (timeout, connection/DNS failure) to
provider-unavailable; any other exception to provider-unavailable — and
every error the adapter can return is one of the three typed provider
variants, so no untyped fault escapes. -/
theorem C2_failure_taxonomy (ip : String) :
    (∀ body, get_geolocation ip (.response 429 body) =
      .error (RateLimitError providerName)) ∧
    (∀ statusCode body, 500 ≤ statusCode →
      get_geolocation ip (.response statusCode body) =
        .error (ProviderUnavailableError providerName
          ("HTTP " ++ toString statusCode)) ∧
      ∃ pre, (ProviderUnavailableError providerName
          ("HTTP " ++ toString statusCode)).message = pre ++ toString statusCode) ∧
    (∀ statusCode msg, statusCode ≠ 429 → statusCode < 500 →
      get_geolocation ip (.response statusCode (.error msg)) =
        .error (ProviderUnavailableError providerName
          ("Invalid JSON response: " ++ msg))) ∧
    (∀ statusCode data, statusCode ≠ 429 → statusCode < 500 →
      data.status = some "fail" →
      get_geolocation ip (.response statusCode (.ok data)) =
        .error (IPNotFoundError ip)) ∧
    (∀ tn,
      get_geolocation ip (.timeoutExc tn) =
        .error (ProviderUnavailableError providerName ("Network error: " ++ tn)) ∧
      get_geolocation ip (.connectExc tn) =
        .error (ProviderUnavailableError providerName ("Network error: " ++ tn)) ∧
      get_geolocation ip (.otherExc tn) =
        .error (ProviderUnavailableError providerName ("Unexpected error: " ++ tn))) ∧
    (∀ outcome e, get_geolocation ip outcome = .error e →
      e.error_type = "ip_not_found" ∨ e.error_type = "rate_limit_exceeded" ∨
        e.error_type = "provider_unavailable") := by
  refine ⟨fun body => rfl, ?_, ?_, ?_, fun tn => ⟨rfl, rfl, rfl⟩, ?_⟩
  · intro statusCode body h
    have h1 : (statusCode == 429) = false := by simp; omega
    have h2 : statusCode ≥ 500 := h
    refine ⟨by simp [get_geolocation, h1, h2], ?_⟩
    refine ⟨"Geolocation provider " ++ providerName ++ " is unavailable: " ++ "HTTP ", ?_⟩
    exact (string_append_assoc _ "HTTP " (toString statusCode)).symm
  · intro statusCode msg h429 h500
    have h1 : (statusCode == 429) = false := by simpa using h429
    have h2 : ¬ statusCode ≥ 500 := by omega
    simp [get_geolocation, h1, h2]
  · intro statusCode data h429 h500 hfail
    have h1 : (statusCode == 429) = false := by simpa using h429
    have h2 : ¬ statusCode ≥ 500 := by omega
    have h3 : (data.status == some "fail") = true := by simp [hfail]
    simp [get_geolocation, h1, h2, h3]
  · intro outcome e h
    cases outcome with
    | timeoutExc tn =>
      injection h with h'
      subst h'
      exact Or.inr (Or.inr rfl)
    | connectExc tn =>
      injection h with h'
      subst h'
      exact Or.inr (Or.inr rfl)
    | otherExc tn =>
      injection h with h'
      subst h'
      exact Or.inr (Or.inr rfl)
    | response statusCode body =>
      simp only [get_geolocation] at h
      repeat' split at h
      all_goals
        first
          | exact Except.noConfusion h
          | (injection h with h'
             subst h'
             first
               | exact Or.inl rfl
               | exact Or.inr (Or.inl rfl)
               | exact Or.inr (Or.inr rfl))

/-- C2, witness: concrete instances of the five mapped failure
conditions. -/
theorem C2_witness :
    get_geolocation "8.8.8.8" (.response 429 (.ok emptyBody)) =
      .error (RateLimitError providerName) ∧
    get_geolocation "8.8.8.8" (.response 503 (.ok emptyBody)) =
      .error (ProviderUnavailableError providerName ("HTTP " ++ toString 503)) ∧
    get_geolocation "8.8.8.8" (.response 200 (.error "Expecting value")) =
      .error (ProviderUnavailableError providerName
        ("Invalid JSON response: " ++ "Expecting value")) ∧
    get_geolocation "1.2.3.4"
      (.response 200 (.ok { emptyBody with status := some "fail" })) =
      .error (IPNotFoundError "1.2.3.4") ∧
    get_geolocation "8.8.8.8" (.timeoutExc "ReadTimeout") =
      .error (ProviderUnavailableError providerName
        ("Network error: " ++ "ReadTimeout")) :=
  ⟨(C2_failure_taxonomy "8.8.8.8").1 (.ok emptyBody),
   ((C2_failure_taxonomy "8.8.8.8").2.1 503 (.ok emptyBody) (by decide)).1,
   (C2_failure_taxonomy "8.8.8.8").2.2.1 200 "Expecting value" (by decide) (by decide),
   (C2_failure_taxonomy "1.2.3.4").2.2.2.1 200
     { emptyBody with status := some "fail" } (by decide) (by decide) rfl,
   ((C2_failure_taxonomy "8.8.8.8").2.2.2.2.1 "ReadTimeout").1⟩

/-- C5, counterexample: the claim's success mapping fails in two
independent ways inside the success path.  First, on a body whose "as"
field is a single space — present and non-empty, so Python's truthiness
test passes, but `split()` yields no tokens — the adapter returns no
record at all: the `[0]` index raises `IndexError`, the last-resort
handler catches it, and the call fails with the provider-unavailable
error.  Second, on a body whose "query" is present but not an IP address
("hello"), the pydantic `IPvAnyAddress` validation of the `ip` field
raises `ValidationError` in the constructor, and the call again fails
with the provider-unavailable error instead of returning a record whose
ip equals the query. -/
theorem C5_counterexample :
    get_geolocation "8.8.8.8"
      (.response 200 (.ok { emptyBody with query := some "8.8.8.8", asField := some " " })) =
      .error (ProviderUnavailableError providerName "Unexpected error: IndexError") ∧
    get_geolocation "8.8.8.8"
      (.response 200 (.ok { emptyBody with query := some "hello" })) =
      .error (ProviderUnavailableError providerName "Unexpected error: ValidationError") := by
  refine ⟨by decide, by decide⟩

/-- C5 (amended): on the success path (status neither 429 nor >= 500,
body parses, status marker not "fail", "query" present and parsing as an
IPv4 or IPv6 address) the adapter returns the record mapping the
upstream fields: `ip` is the address pydantic parses from the body's
`query`; `zip_code` is exactly the optional `zip` field (absent when
missing); each missing string field among country, countryCode,
regionName, region, city, timezone, isp, org becomes ""; missing lat/lon
become 0; and the "as" field is split on whitespace runs into as_number
(first token) and as_name (remaining tokens joined with single spaces)
when it has at least one token, with an absent or empty "as" giving both
"".  Two exceptions, both caught by the last-resort handler as the
provider-unavailable error: a present, non-empty, all-whitespace "as"
raises IndexError, and a "query" that parses as neither an IPv4 nor an
IPv6 address raises ValidationError in the pydantic constructor. -/
theorem C5_success_mapping (ip : String) (statusCode : Nat) (data : UpstreamBody)
    (q : String) (h429 : statusCode ≠ 429) (h500 : statusCode < 500)
    (hfail : data.status ≠ some "fail") (hq : data.query = some q) :
    (∀ addr, parseIPAny q = some addr → pyTruthy data.asField = false →
      get_geolocation ip (.response statusCode (.ok data)) =
        .ok ⟨addr, data.country.getD "", data.countryCode.getD "",
          data.regionName.getD "", data.region.getD "", data.city.getD "",
          data.zip, data.lat.getD 0, data.lon.getD 0, data.timezone.getD "",
          data.isp.getD "", data.org.getD "", "", ""⟩) ∧
    (∀ addr t ts, parseIPAny q = some addr → pyTruthy data.asField = true →
      splitWS (data.asField.getD "") = t :: ts →
      get_geolocation ip (.response statusCode (.ok data)) =
        .ok ⟨addr, data.country.getD "", data.countryCode.getD "",
          data.regionName.getD "", data.region.getD "", data.city.getD "",
          data.zip, data.lat.getD 0, data.lon.getD 0, data.timezone.getD "",
          data.isp.getD "", data.org.getD "", t, String.intercalate " " ts⟩) ∧
    (pyTruthy data.asField = true → splitWS (data.asField.getD "") = [] →
      get_geolocation ip (.response statusCode (.ok data)) =
        .error (ProviderUnavailableError providerName
          "Unexpected error: IndexError")) ∧
    (∀ a, asNumberOf data.asField = .ok a → parseIPAny q = none →
      get_geolocation ip (.response statusCode (.ok data)) =
        .error (ProviderUnavailableError providerName
          "Unexpected error: ValidationError")) := by
  have h1 : (statusCode == 429) = false := by simpa using h429
  have h2 : ¬ statusCode ≥ 500 := by omega
  have h3 : (data.status == some "fail") = false := by simpa using hfail
  refine ⟨?_, ?_, ?_, ?_⟩
  · intro addr haddr has
    simp [get_geolocation, h1, h2, h3, hq, haddr, asNumberOf, asNameOf, has]
  · intro addr t ts haddr has hsplit
    simp [get_geolocation, h1, h2, h3, hq, haddr, asNumberOf, asNameOf, has, hsplit]
  · intro has hsplit
    simp [get_geolocation, h1, h2, h3, hq, asNumberOf, asNameOf, has, hsplit]
  · intro a ha haddr
    simp [get_geolocation, h1, h2, h3, hq, ha, haddr]

/-- C5, witness: the claim's concrete example — "as": "AS15169 GOOGLE" and
"query": "8.8.8.8" on an otherwise empty 200 body yields a record with the
parsed address 8.8.8.8, as_number "AS15169", as_name "GOOGLE", every
missing string field "", an absent zip_code and coordinates 0. -/
theorem C5_witness :
    get_geolocation "8.8.8.8"
      (.response 200 (.ok { emptyBody with query := some "8.8.8.8", asField := some "AS15169 GOOGLE" })) =
      .ok ⟨.v4 (ipv4 8 8 8 8), "", "", "", "", "", none, 0, 0, "", "", "",
        "AS15169", "GOOGLE"⟩ := by
  have h := (C5_success_mapping "8.8.8.8" 200
      { emptyBody with query := some "8.8.8.8", asField := some "AS15169 GOOGLE" }
      "8.8.8.8" (by decide) (by decide) (by decide) rfl).2.1
      (.v4 (ipv4 8 8 8 8)) "AS15169" ["GOOGLE"] (by decide) (by decide) (by decide)
  exact h

end GeoService
